import Mathlib

/-!
# UltraHDRWrapper: the facade over the ultrahdr codec engine

A shallow embedding of `UltraHDRCore/Sources/Wrapper/UltraHDRWrapper.cpp`.

The codec engine (`ultrahdr::JpegR`) and the C allocator are not part of the
repository.  Their behaviour at a call is a parameter of every operation:
`JpegR` holds one function per engine entry point the wrapper uses, and
`decodeToHDR` takes the answer of `malloc`.  All theorems quantify over them.

Conventions of the embedding:
* a `const void*` input buffer is the list of bytes it points to;
* `size_t` and `unsigned int` values are natural numbers, and
  `static_cast<unsigned int>` reduces modulo `2 ^ 32`;
* `int` values (width, height, pixel format, quality, status) are integers;
* the `float` display boost is carried as its bit pattern, the wrapper does no
  arithmetic on it;
* storage exhaustion inside `std::vector::resize` is outside the model, and
  so is the line `setError` writes to `std::cerr`.
-/

namespace UltraHDR

/-- One `uint8_t`. -/
abbrev Byte := Fin 256

/-- The integer value of an `ultrahdr::Status`, as `static_cast<int>` gives it. -/
abbrev Status := Int

/-- The bit pattern of a C `float`. -/
abbrev CFloat := Nat

/-- The engine's `ultrahdr::GainMapMetadata`; the wrapper only ever builds the
default-constructed value. -/
inductive GainMapMetadata where
  | defaultConstructed
  deriving DecidableEq, Repr

/-- How a call into the engine ends: it returns a value, it throws an object
derived from `std::exception` whose `what()` is the given text, or it throws
something else. -/
inductive EngineResult (α : Type) where
  | returned (value : α)
  | threw (what : String)
  | threwOther
  deriving DecidableEq, Repr

/-- What an `encodeJPEGR` overload hands back: its status and the values of
`compressedJpegR` and `compressedJpegRSize` after the call. -/
structure EncodeOut where
  status : Status
  compressedJpegR : List Byte
  compressedJpegRSize : Nat
  deriving DecidableEq, Repr

/-- What `decodeJPEGR` hands back: its status and the values of `decodedHdr`
and `decodedHdrSize` after the call. -/
structure DecodeOut where
  status : Status
  decodedHdr : List Byte
  decodedHdrSize : Nat
  deriving DecidableEq, Repr

/-- The whole effect of a `decodeJPEGR` call: how it ended, and what it left
in the caller's `width` and `height`, which it is given by address. -/
structure DecodeEffect where
  result : EngineResult DecodeOut
  width : Int
  height : Int
  deriving DecidableEq, Repr

/-- The engine `ultrahdr::JpegR` as the wrapper sees it: the status value `OK`
and the six entry points it calls, with the arguments in the order of the
source. -/
structure JpegR where
  OK : Status
  encodeJPEGR_hdr :
    List Byte → Nat → Int → Int → Int → Int → Option (List Byte) → Nat →
      EngineResult EncodeOut
  encodeJPEGR_hdrSdr :
    List Byte → Nat → List Byte → Nat → Int → Int → Int → Int → Int →
      Option (List Byte) → Nat → EngineResult EncodeOut
  encodeJPEGR_hdrJpeg :
    List Byte → Nat → Int → Int → Int → List Byte → Nat → EngineResult EncodeOut
  encodeJPEGR_jpegGainmap :
    List Byte → Nat → List Byte → Nat → GainMapMetadata → EngineResult EncodeOut
  decodeJPEGR : List Byte → Nat → CFloat → Int → Int → Int → DecodeEffect
  isJPEGR : List Byte → Nat → EngineResult Status

/-- The conversion `static_cast<unsigned int>(n)` of a `size_t`. -/
def static_cast_unsigned_int (n : Nat) : Nat := n % 2 ^ 32

/-- The call `v.resize(n)` on a `std::vector<uint8_t>`: the first `n` elements
are kept, new elements are zero. -/
def resize (v : List Byte) (n : Nat) : List Byte :=
  v.take n ++ List.replicate (n - v.length) 0

/-- The call `std::memcpy(dst, src, n)`: the first `n` bytes of `dst` become the
first `n` bytes of `src`.  Its behaviour is undefined (`none`) when either
block is shorter than `n`. -/
def memcpy (dst src : List Byte) (n : Nat) : Option (List Byte) :=
  if n ≤ dst.length ∧ n ≤ src.length then some (src.take n ++ dst.drop n) else none

/-- The state of an `UltraHDRWrapper` object: its `lastError_` string. -/
structure UltraHDRWrapper where
  lastError_ : String
  deriving DecidableEq, Repr

/-- How a wrapper operation ends: it returns a boolean, an exception leaves it,
or its behaviour is undefined.  In the first two cases the object and the
caller's output parameters have the given values afterwards. -/
inductive Outcome (α : Type) where
  | returned (result : Bool) (self : UltraHDRWrapper) (out : α)
  | propagated (self : UltraHDRWrapper) (out : α)
  | undefined
  deriving DecidableEq, Repr

/-- The output parameters of `decodeToHDR`; `outputData` is `none` for the null
pointer and otherwise the block it points to. -/
structure DecodeOutputs where
  outputData : Option (List Byte)
  outputDataSize : Nat
  width : Int
  height : Int
  deriving DecidableEq, Repr

namespace UltraHDRWrapper

/-- The constructor: `lastError_` is default-constructed, hence empty. -/
def new : UltraHDRWrapper := { lastError_ := "" }

/-- The method `setError`. -/
def setError (self : UltraHDRWrapper) (error : String) : UltraHDRWrapper :=
  { self with lastError_ := error }

/-- The method `getLastError`. -/
def getLastError (self : UltraHDRWrapper) : String := self.lastError_

/-- The method `encodeFromHDROnly`. -/
def encodeFromHDROnly (jpegr : JpegR) (self : UltraHDRWrapper)
    (hdrData : List Byte) (hdrDataSize : Nat) (width height hdrPixelFormat quality : Int)
    (outputData : List Byte) : Outcome (List Byte) :=
  match jpegr.encodeJPEGR_hdr hdrData (static_cast_unsigned_int hdrDataSize) width height
      hdrPixelFormat quality none 0 with
  | .returned r =>
    if r.status ≠ jpegr.OK then
      .returned false (self.setError ("Failed to encode JPEGR: " ++ toString r.status)) outputData
    else
      match memcpy (resize outputData r.compressedJpegRSize) r.compressedJpegR
          r.compressedJpegRSize with
      | some copied => .returned true self copied
      | none => .undefined
  | .threw what =>
    .returned false (self.setError ("Exception during encoding: " ++ what)) outputData
  | .threwOther => .propagated self outputData

/-- The method `encodeFromHDRAndSDR`. -/
def encodeFromHDRAndSDR (jpegr : JpegR) (self : UltraHDRWrapper)
    (hdrData : List Byte) (hdrDataSize : Nat) (hdrPixelFormat : Int)
    (sdrData : List Byte) (sdrDataSize : Nat) (sdrPixelFormat : Int)
    (width height quality : Int) (outputData : List Byte) : Outcome (List Byte) :=
  match jpegr.encodeJPEGR_hdrSdr hdrData (static_cast_unsigned_int hdrDataSize)
      sdrData (static_cast_unsigned_int sdrDataSize) width height
      hdrPixelFormat sdrPixelFormat quality none 0 with
  | .returned r =>
    if r.status ≠ jpegr.OK then
      .returned false (self.setError ("Failed to encode JPEGR: " ++ toString r.status)) outputData
    else
      match memcpy (resize outputData r.compressedJpegRSize) r.compressedJpegR
          r.compressedJpegRSize with
      | some copied => .returned true self copied
      | none => .undefined
  | .threw what =>
    .returned false (self.setError ("Exception during encoding: " ++ what)) outputData
  | .threwOther => .propagated self outputData

/-- The method `encodeFromHDRAndCompressedSDR`. -/
def encodeFromHDRAndCompressedSDR (jpegr : JpegR) (self : UltraHDRWrapper)
    (hdrData : List Byte) (hdrDataSize : Nat) (hdrPixelFormat : Int)
    (sdrJpegData : List Byte) (sdrJpegDataSize : Nat)
    (width height : Int) (outputData : List Byte) : Outcome (List Byte) :=
  match jpegr.encodeJPEGR_hdrJpeg hdrData (static_cast_unsigned_int hdrDataSize) width height
      hdrPixelFormat sdrJpegData (static_cast_unsigned_int sdrJpegDataSize) with
  | .returned r =>
    if r.status ≠ jpegr.OK then
      .returned false (self.setError ("Failed to encode JPEGR: " ++ toString r.status)) outputData
    else
      match memcpy (resize outputData r.compressedJpegRSize) r.compressedJpegR
          r.compressedJpegRSize with
      | some copied => .returned true self copied
      | none => .undefined
  | .threw what =>
    .returned false (self.setError ("Exception during encoding: " ++ what)) outputData
  | .threwOther => .propagated self outputData

/-- The method `encodeFromCompressedSDRAndGainmap`. -/
def encodeFromCompressedSDRAndGainmap (jpegr : JpegR) (self : UltraHDRWrapper)
    (sdrJpegData : List Byte) (sdrJpegDataSize : Nat)
    (gainmapJpegData : List Byte) (gainmapJpegDataSize : Nat)
    (outputData : List Byte) : Outcome (List Byte) :=
  let metadata := GainMapMetadata.defaultConstructed
  match jpegr.encodeJPEGR_jpegGainmap sdrJpegData (static_cast_unsigned_int sdrJpegDataSize)
      gainmapJpegData (static_cast_unsigned_int gainmapJpegDataSize) metadata with
  | .returned r =>
    if r.status ≠ jpegr.OK then
      .returned false (self.setError ("Failed to encode JPEGR: " ++ toString r.status)) outputData
    else
      match memcpy (resize outputData r.compressedJpegRSize) r.compressedJpegR
          r.compressedJpegRSize with
      | some copied => .returned true self copied
      | none => .undefined
  | .threw what =>
    .returned false (self.setError ("Exception during encoding: " ++ what)) outputData
  | .threwOther => .propagated self outputData

/-- The method `decodeToHDR`.  `malloc` is the allocator's answer for a request
of the given size: `none` is the null pointer, otherwise the fresh block. -/
def decodeToHDR (jpegr : JpegR) (malloc : Nat → Option (List Byte)) (self : UltraHDRWrapper)
    (jpegrData : List Byte) (jpegrDataSize : Nat) (out : DecodeOutputs)
    (outputPixelFormat : Int) (maxDisplayBoost : CFloat) : Outcome DecodeOutputs :=
  let e := jpegr.decodeJPEGR jpegrData (static_cast_unsigned_int jpegrDataSize) maxDisplayBoost
    outputPixelFormat out.width out.height
  let out := { out with width := e.width, height := e.height }
  match e.result with
  | .returned r =>
    if r.status ≠ jpegr.OK then
      .returned false (self.setError ("Failed to decode JPEGR: " ++ toString r.status)) out
    else
      let out := { out with outputDataSize := r.decodedHdrSize }
      let out := { out with outputData := malloc out.outputDataSize }
      match out.outputData with
      | none =>
        .returned false (self.setError "Failed to allocate memory for decoded data") out
      | some block =>
        match memcpy block r.decodedHdr r.decodedHdrSize with
        | some copied => .returned true self { out with outputData := some copied }
        | none => .undefined
  | .threw what =>
    .returned false (self.setError ("Exception during decoding: " ++ what)) out
  | .threwOther => .propagated self out

/-- The method `isUltraHDRImage`. -/
def isUltraHDRImage (jpegr : JpegR) (self : UltraHDRWrapper)
    (jpegData : List Byte) (jpegSize : Nat) : Outcome Unit :=
  match jpegr.isJPEGR jpegData (static_cast_unsigned_int jpegSize) with
  | .returned status => .returned (decide (status = jpegr.OK)) self ()
  | .threw what =>
    .returned false (self.setError ("Exception during isUltraHDRImage: " ++ what)) ()
  | .threwOther => .propagated self ()

end UltraHDRWrapper

/-! ## Engine stubs and call sequences -/

/-- A fault-injecting engine stub: whatever it is handed, every encode entry
point answers `enc`, `decodeJPEGR` has the effect `dec` and `isJPEGR` answers
`insp`.  Its `OK` is `0`. -/
def JpegR.stub (enc : EngineResult EncodeOut) (dec : DecodeEffect)
    (insp : EngineResult Status) : JpegR where
  OK := 0
  encodeJPEGR_hdr := fun _ _ _ _ _ _ _ _ => enc
  encodeJPEGR_hdrSdr := fun _ _ _ _ _ _ _ _ _ _ _ => enc
  encodeJPEGR_hdrJpeg := fun _ _ _ _ _ _ _ => enc
  encodeJPEGR_jpegGainmap := fun _ _ _ _ _ => enc
  decodeJPEGR := fun _ _ _ _ _ _ => dec
  isJPEGR := fun _ _ => insp

/-- An engine stub that reports the buffer lengths it is handed: every entry
point throws a `std::exception` whose message is the decimal value of the
length it received, or of both lengths separated by a comma. -/
def JpegR.lengthProbe : JpegR where
  OK := 0
  encodeJPEGR_hdr := fun _ n _ _ _ _ _ _ => .threw (toString n)
  encodeJPEGR_hdrSdr := fun _ n _ m _ _ _ _ _ _ _ => .threw (toString n ++ "," ++ toString m)
  encodeJPEGR_hdrJpeg := fun _ n _ _ _ _ m => .threw (toString n ++ "," ++ toString m)
  encodeJPEGR_jpegGainmap := fun _ n _ m _ => .threw (toString n ++ "," ++ toString m)
  decodeJPEGR := fun _ n _ _ w h => ⟨.threw (toString n), w, h⟩
  isJPEGR := fun _ n => .threw (toString n)

/-- The boolean an operation returned, when it returned. -/
def Outcome.result? {α : Type} : Outcome α → Option Bool
  | .returned b _ _ => some b
  | .propagated _ _ => none
  | .undefined => none

/-- The object after the operation, when its behaviour is defined. -/
def Outcome.self? {α : Type} : Outcome α → Option UltraHDRWrapper
  | .returned _ w _ => some w
  | .propagated w _ => some w
  | .undefined => none

/-- The output parameters after the operation, when its behaviour is defined. -/
def Outcome.out? {α : Type} : Outcome α → Option α
  | .returned _ _ o => some o
  | .propagated _ o => some o
  | .undefined => none

/-- The steps the four encode methods share once the engine call has ended with
`e`: the status test, the copy into `outputData`, and the handler of the
`try` block.  It serves to state the lemmas about them once. -/
def encodeTail (OK : Status) (self : UltraHDRWrapper) (e : EngineResult EncodeOut)
    (outputData : List Byte) : Outcome (List Byte) :=
  match e with
  | .returned r =>
    if r.status ≠ OK then
      .returned false (self.setError ("Failed to encode JPEGR: " ++ toString r.status)) outputData
    else
      match memcpy (resize outputData r.compressedJpegRSize) r.compressedJpegR
          r.compressedJpegRSize with
      | some copied => .returned true self copied
      | none => .undefined
  | .threw what =>
    .returned false (self.setError ("Exception during encoding: " ++ what)) outputData
  | .threwOther => .propagated self outputData

/-- One call on a wrapper object: the method, the behaviour of the engine (and
of the allocator) at that call, and the caller's arguments. -/
inductive Call where
  | encodeFromHDROnly (jpegr : JpegR) (hdrData : List Byte) (hdrDataSize : Nat)
      (width height hdrPixelFormat quality : Int) (outputData : List Byte)
  | encodeFromHDRAndSDR (jpegr : JpegR) (hdrData : List Byte) (hdrDataSize : Nat)
      (hdrPixelFormat : Int) (sdrData : List Byte) (sdrDataSize : Nat) (sdrPixelFormat : Int)
      (width height quality : Int) (outputData : List Byte)
  | encodeFromHDRAndCompressedSDR (jpegr : JpegR) (hdrData : List Byte) (hdrDataSize : Nat)
      (hdrPixelFormat : Int) (sdrJpegData : List Byte) (sdrJpegDataSize : Nat)
      (width height : Int) (outputData : List Byte)
  | encodeFromCompressedSDRAndGainmap (jpegr : JpegR) (sdrJpegData : List Byte)
      (sdrJpegDataSize : Nat) (gainmapJpegData : List Byte) (gainmapJpegDataSize : Nat)
      (outputData : List Byte)
  | decodeToHDR (jpegr : JpegR) (malloc : Nat → Option (List Byte)) (jpegrData : List Byte)
      (jpegrDataSize : Nat) (out : DecodeOutputs) (outputPixelFormat : Int)
      (maxDisplayBoost : CFloat)
  | isUltraHDRImage (jpegr : JpegR) (jpegData : List Byte) (jpegSize : Nat)
  | getLastError

/-- The boolean a call returns when made on `self`; `getLastError` returns a
text and no boolean. -/
def Call.result? : Call → UltraHDRWrapper → Option Bool
  | .encodeFromHDROnly j a b c d e f o, self =>
    (UltraHDRWrapper.encodeFromHDROnly j self a b c d e f o).result?
  | .encodeFromHDRAndSDR j a b c d e f g h i o, self =>
    (UltraHDRWrapper.encodeFromHDRAndSDR j self a b c d e f g h i o).result?
  | .encodeFromHDRAndCompressedSDR j a b c d e f g o, self =>
    (UltraHDRWrapper.encodeFromHDRAndCompressedSDR j self a b c d e f g o).result?
  | .encodeFromCompressedSDRAndGainmap j a b c d o, self =>
    (UltraHDRWrapper.encodeFromCompressedSDRAndGainmap j self a b c d o).result?
  | .decodeToHDR j m a b o f x, self =>
    (UltraHDRWrapper.decodeToHDR j m self a b o f x).result?
  | .isUltraHDRImage j a b, self => (UltraHDRWrapper.isUltraHDRImage j self a b).result?
  | .getLastError, _ => none

/-- The object after a call made on `self`, when the call's behaviour is
defined; `getLastError` is a `const` method. -/
def Call.exec : Call → UltraHDRWrapper → Option UltraHDRWrapper
  | .encodeFromHDROnly j a b c d e f o, self =>
    (UltraHDRWrapper.encodeFromHDROnly j self a b c d e f o).self?
  | .encodeFromHDRAndSDR j a b c d e f g h i o, self =>
    (UltraHDRWrapper.encodeFromHDRAndSDR j self a b c d e f g h i o).self?
  | .encodeFromHDRAndCompressedSDR j a b c d e f g o, self =>
    (UltraHDRWrapper.encodeFromHDRAndCompressedSDR j self a b c d e f g o).self?
  | .encodeFromCompressedSDRAndGainmap j a b c d o, self =>
    (UltraHDRWrapper.encodeFromCompressedSDRAndGainmap j self a b c d o).self?
  | .decodeToHDR j m a b o f x, self =>
    (UltraHDRWrapper.decodeToHDR j m self a b o f x).self?
  | .isUltraHDRImage j a b, self => (UltraHDRWrapper.isUltraHDRImage j self a b).self?
  | .getLastError, self => some self

/-- Whether a call fails: an encode or decode call fails when it returns false,
a detection call when the engine throws a `std::exception` (a false answer to
the detection is a result, not a failure), `getLastError` never.  The boolean
an operation returns does not depend on the object, so it is read off a fresh
one. -/
def Call.fails : Call → Bool
  | .isUltraHDRImage j a b =>
    match j.isJPEGR a (static_cast_unsigned_int b) with
    | .threw _ => true
    | _ => false
  | .getLastError => false
  | c => c.result? UltraHDRWrapper.new == some false

/-- The text a failing call records; it does not depend on the object either. -/
def Call.recorded (c : Call) : String :=
  match c.exec UltraHDRWrapper.new with
  | some w => w.getLastError
  | none => ""

/-- The object after a sequence of calls, made one after the other. -/
def runAll : List Call → UltraHDRWrapper → Option UltraHDRWrapper
  | [], self => some self
  | c :: cs, self =>
    match c.exec self with
    | some self1 => runAll cs self1
    | none => none

/-- The text recorded by the most recent failing call of a sequence, the empty
string when no call of it fails. -/
def lastRecorded (calls : List Call) : String :=
  match calls.reverse.find? Call.fails with
  | some c => c.recorded
  | none => ""

open UltraHDRWrapper

/-! ## Lemmas on the copy step and on the shared encode steps -/

theorem memcpy_exact (block src : List Byte) (n : Nat) (hb : block.length = n)
    (h : n ≤ src.length) : memcpy block src n = some (src.take n) := by
  have hd : block.drop n = [] := List.drop_eq_nil_of_le (by omega)
  simp [memcpy, hb, h, hd]

theorem encodeFromHDROnly_eq_tail (jpegr : JpegR) (self : UltraHDRWrapper)
    (hdrData : List Byte) (hdrDataSize : Nat) (width height hdrPixelFormat quality : Int)
    (outputData : List Byte) :
    encodeFromHDROnly jpegr self hdrData hdrDataSize width height hdrPixelFormat quality
        outputData =
      encodeTail jpegr.OK self
        (jpegr.encodeJPEGR_hdr hdrData (static_cast_unsigned_int hdrDataSize) width height
          hdrPixelFormat quality none 0) outputData := rfl

theorem encodeFromHDRAndSDR_eq_tail (jpegr : JpegR) (self : UltraHDRWrapper)
    (hdrData : List Byte) (hdrDataSize : Nat) (hdrPixelFormat : Int)
    (sdrData : List Byte) (sdrDataSize : Nat) (sdrPixelFormat : Int)
    (width height quality : Int) (outputData : List Byte) :
    encodeFromHDRAndSDR jpegr self hdrData hdrDataSize hdrPixelFormat sdrData sdrDataSize
        sdrPixelFormat width height quality outputData =
      encodeTail jpegr.OK self
        (jpegr.encodeJPEGR_hdrSdr hdrData (static_cast_unsigned_int hdrDataSize)
          sdrData (static_cast_unsigned_int sdrDataSize) width height
          hdrPixelFormat sdrPixelFormat quality none 0) outputData := rfl

theorem encodeFromHDRAndCompressedSDR_eq_tail (jpegr : JpegR) (self : UltraHDRWrapper)
    (hdrData : List Byte) (hdrDataSize : Nat) (hdrPixelFormat : Int)
    (sdrJpegData : List Byte) (sdrJpegDataSize : Nat)
    (width height : Int) (outputData : List Byte) :
    encodeFromHDRAndCompressedSDR jpegr self hdrData hdrDataSize hdrPixelFormat sdrJpegData
        sdrJpegDataSize width height outputData =
      encodeTail jpegr.OK self
        (jpegr.encodeJPEGR_hdrJpeg hdrData (static_cast_unsigned_int hdrDataSize) width height
          hdrPixelFormat sdrJpegData (static_cast_unsigned_int sdrJpegDataSize))
        outputData := rfl

theorem encodeFromCompressedSDRAndGainmap_eq_tail (jpegr : JpegR) (self : UltraHDRWrapper)
    (sdrJpegData : List Byte) (sdrJpegDataSize : Nat)
    (gainmapJpegData : List Byte) (gainmapJpegDataSize : Nat) (outputData : List Byte) :
    encodeFromCompressedSDRAndGainmap jpegr self sdrJpegData sdrJpegDataSize gainmapJpegData
        gainmapJpegDataSize outputData =
      encodeTail jpegr.OK self
        (jpegr.encodeJPEGR_jpegGainmap sdrJpegData (static_cast_unsigned_int sdrJpegDataSize)
          gainmapJpegData (static_cast_unsigned_int gainmapJpegDataSize)
          GainMapMetadata.defaultConstructed) outputData := rfl

theorem encodeTail_failed (OK : Status) (self : UltraHDRWrapper) (r : EncodeOut)
    (outputData : List Byte) (hs : r.status ≠ OK) :
    encodeTail OK self (.returned r) outputData =
      .returned false { lastError_ := "Failed to encode JPEGR: " ++ toString r.status }
        outputData := by
  simp [encodeTail, hs, setError]

/-- C1: in each of the four encode methods, when the engine call returns a
status other than `OK`, the method returns false, the last-error text is
exactly "Failed to encode JPEGR: " followed by the decimal value of the status,
and `outputData` is what it was before the call. -/
theorem encode_engine_failure (jpegr : JpegR) (self : UltraHDRWrapper) (r : EncodeOut)
    (outputData : List Byte) (hs : r.status ≠ jpegr.OK) :
    (∀ (hdrData : List Byte) (hdrDataSize : Nat) (width height hdrPixelFormat quality : Int),
      jpegr.encodeJPEGR_hdr hdrData (static_cast_unsigned_int hdrDataSize) width height
          hdrPixelFormat quality none 0 = .returned r →
        encodeFromHDROnly jpegr self hdrData hdrDataSize width height hdrPixelFormat quality
            outputData =
          .returned false { lastError_ := "Failed to encode JPEGR: " ++ toString r.status }
            outputData) ∧
    (∀ (hdrData : List Byte) (hdrDataSize : Nat) (hdrPixelFormat : Int) (sdrData : List Byte)
        (sdrDataSize : Nat) (sdrPixelFormat width height quality : Int),
      jpegr.encodeJPEGR_hdrSdr hdrData (static_cast_unsigned_int hdrDataSize) sdrData
          (static_cast_unsigned_int sdrDataSize) width height hdrPixelFormat sdrPixelFormat
          quality none 0 = .returned r →
        encodeFromHDRAndSDR jpegr self hdrData hdrDataSize hdrPixelFormat sdrData sdrDataSize
            sdrPixelFormat width height quality outputData =
          .returned false { lastError_ := "Failed to encode JPEGR: " ++ toString r.status }
            outputData) ∧
    (∀ (hdrData : List Byte) (hdrDataSize : Nat) (hdrPixelFormat : Int)
        (sdrJpegData : List Byte) (sdrJpegDataSize : Nat) (width height : Int),
      jpegr.encodeJPEGR_hdrJpeg hdrData (static_cast_unsigned_int hdrDataSize) width height
          hdrPixelFormat sdrJpegData (static_cast_unsigned_int sdrJpegDataSize) = .returned r →
        encodeFromHDRAndCompressedSDR jpegr self hdrData hdrDataSize hdrPixelFormat sdrJpegData
            sdrJpegDataSize width height outputData =
          .returned false { lastError_ := "Failed to encode JPEGR: " ++ toString r.status }
            outputData) ∧
    (∀ (sdrJpegData : List Byte) (sdrJpegDataSize : Nat) (gainmapJpegData : List Byte)
        (gainmapJpegDataSize : Nat),
      jpegr.encodeJPEGR_jpegGainmap sdrJpegData (static_cast_unsigned_int sdrJpegDataSize)
          gainmapJpegData (static_cast_unsigned_int gainmapJpegDataSize)
          GainMapMetadata.defaultConstructed = .returned r →
        encodeFromCompressedSDRAndGainmap jpegr self sdrJpegData sdrJpegDataSize gainmapJpegData
            gainmapJpegDataSize outputData =
          .returned false { lastError_ := "Failed to encode JPEGR: " ++ toString r.status }
            outputData) := by
  refine ⟨?_, ?_, ?_, ?_⟩
  · intro hdrData hdrDataSize width height hdrPixelFormat quality he
    rw [encodeFromHDROnly_eq_tail, he, encodeTail_failed _ _ _ _ hs]
  · intro hdrData hdrDataSize hdrPixelFormat sdrData sdrDataSize sdrPixelFormat width height
      quality he
    rw [encodeFromHDRAndSDR_eq_tail, he, encodeTail_failed _ _ _ _ hs]
  · intro hdrData hdrDataSize hdrPixelFormat sdrJpegData sdrJpegDataSize width height he
    rw [encodeFromHDRAndCompressedSDR_eq_tail, he, encodeTail_failed _ _ _ _ hs]
  · intro sdrJpegData sdrJpegDataSize gainmapJpegData gainmapJpegDataSize he
    rw [encodeFromCompressedSDRAndGainmap_eq_tail, he, encodeTail_failed _ _ _ _ hs]

/-- Witness of C1: an engine stub answering status `-3` to every encode call,
on an object whose last error was "old" and an output vector holding 1, 2. -/
theorem encode_engine_failure_witness :
    encodeFromHDROnly (JpegR.stub (.returned ⟨-3, [], 0⟩) ⟨.threwOther, 0, 0⟩ .threwOther)
        ⟨"old"⟩ [5] 1 1 1 2 90 [1, 2] =
      .returned false ⟨"Failed to encode JPEGR: -3"⟩ [1, 2] ∧
    encodeFromHDRAndSDR (JpegR.stub (.returned ⟨-3, [], 0⟩) ⟨.threwOther, 0, 0⟩ .threwOther)
        ⟨"old"⟩ [5] 1 2 [6] 1 0 1 1 90 [1, 2] =
      .returned false ⟨"Failed to encode JPEGR: -3"⟩ [1, 2] ∧
    encodeFromHDRAndCompressedSDR
        (JpegR.stub (.returned ⟨-3, [], 0⟩) ⟨.threwOther, 0, 0⟩ .threwOther)
        ⟨"old"⟩ [5] 1 2 [6] 1 1 1 [1, 2] =
      .returned false ⟨"Failed to encode JPEGR: -3"⟩ [1, 2] ∧
    encodeFromCompressedSDRAndGainmap
        (JpegR.stub (.returned ⟨-3, [], 0⟩) ⟨.threwOther, 0, 0⟩ .threwOther)
        ⟨"old"⟩ [5] 1 [6] 1 [1, 2] =
      .returned false ⟨"Failed to encode JPEGR: -3"⟩ [1, 2] :=
  have h := encode_engine_failure
    (JpegR.stub (.returned ⟨-3, [], 0⟩) ⟨.threwOther, 0, 0⟩ .threwOther) ⟨"old"⟩
    ⟨-3, [], 0⟩ [1, 2] (by decide)
  ⟨h.1 [5] 1 1 1 2 90 rfl, h.2.1 [5] 1 2 [6] 1 0 1 1 90 rfl, h.2.2.1 [5] 1 2 [6] 1 1 1 rfl,
    h.2.2.2 [5] 1 [6] 1 rfl⟩

theorem decodeToHDR_failed (jpegr : JpegR) (malloc : Nat → Option (List Byte))
    (self : UltraHDRWrapper) (jpegrData : List Byte) (jpegrDataSize : Nat) (out : DecodeOutputs)
    (outputPixelFormat : Int) (maxDisplayBoost : CFloat) (r : DecodeOut) (w h : Int)
    (he : jpegr.decodeJPEGR jpegrData (static_cast_unsigned_int jpegrDataSize) maxDisplayBoost
      outputPixelFormat out.width out.height = ⟨.returned r, w, h⟩)
    (hs : r.status ≠ jpegr.OK) :
    decodeToHDR jpegr malloc self jpegrData jpegrDataSize out outputPixelFormat maxDisplayBoost =
      .returned false { lastError_ := "Failed to decode JPEGR: " ++ toString r.status }
        { outputData := out.outputData, outputDataSize := out.outputDataSize,
          width := w, height := h } := by
  simp [decodeToHDR, he, hs, setError]

theorem decodeToHDR_no_memory (jpegr : JpegR) (malloc : Nat → Option (List Byte))
    (self : UltraHDRWrapper) (jpegrData : List Byte) (jpegrDataSize : Nat) (out : DecodeOutputs)
    (outputPixelFormat : Int) (maxDisplayBoost : CFloat) (r : DecodeOut) (w h : Int)
    (he : jpegr.decodeJPEGR jpegrData (static_cast_unsigned_int jpegrDataSize) maxDisplayBoost
      outputPixelFormat out.width out.height = ⟨.returned r, w, h⟩)
    (hs : r.status = jpegr.OK) (hm : malloc r.decodedHdrSize = none) :
    decodeToHDR jpegr malloc self jpegrData jpegrDataSize out outputPixelFormat maxDisplayBoost =
      .returned false { lastError_ := "Failed to allocate memory for decoded data" }
        { outputData := none, outputDataSize := r.decodedHdrSize, width := w, height := h } := by
  simp [decodeToHDR, he, hs, hm, setError]

theorem decodeToHDR_ok (jpegr : JpegR) (malloc : Nat → Option (List Byte))
    (self : UltraHDRWrapper) (jpegrData : List Byte) (jpegrDataSize : Nat) (out : DecodeOutputs)
    (outputPixelFormat : Int) (maxDisplayBoost : CFloat) (r : DecodeOut) (w h : Int)
    (block : List Byte)
    (he : jpegr.decodeJPEGR jpegrData (static_cast_unsigned_int jpegrDataSize) maxDisplayBoost
      outputPixelFormat out.width out.height = ⟨.returned r, w, h⟩)
    (hs : r.status = jpegr.OK) (hn : r.decodedHdrSize ≤ r.decodedHdr.length)
    (hm : malloc r.decodedHdrSize = some block) (hb : block.length = r.decodedHdrSize) :
    decodeToHDR jpegr malloc self jpegrData jpegrDataSize out outputPixelFormat maxDisplayBoost =
      .returned true self
        { outputData := some (r.decodedHdr.take r.decodedHdrSize),
          outputDataSize := r.decodedHdrSize, width := w, height := h } := by
  simp [decodeToHDR, he, hs, hm, memcpy_exact _ _ _ hb hn]

theorem failed_to_decode_ne_failed_to_allocate (s : Int) :
    "Failed to decode JPEGR: " ++ toString s ≠ "Failed to allocate memory for decoded data" := by
  intro h
  have hd := congrArg String.data h
  simp at hd

/-- C3: when the engine decode returns `OK` with a decoded buffer of at least
`n` bytes, the reported size `n`, width `w` and height `h`, and `malloc` gives a
block of `n` bytes, `decodeToHDR` returns true, `outputDataSize` is `n`,
`outputData` points to the new block, which holds exactly the `n` decoded
bytes, and `width` and `height` are `w` and `h`. -/
theorem decode_success_outputs (jpegr : JpegR) (malloc : Nat → Option (List Byte))
    (self : UltraHDRWrapper) (jpegrData : List Byte) (jpegrDataSize : Nat) (out : DecodeOutputs)
    (outputPixelFormat : Int) (maxDisplayBoost : CFloat) (r : DecodeOut) (w h : Int)
    (block : List Byte)
    (he : jpegr.decodeJPEGR jpegrData (static_cast_unsigned_int jpegrDataSize) maxDisplayBoost
      outputPixelFormat out.width out.height = ⟨.returned r, w, h⟩)
    (hs : r.status = jpegr.OK) (hn : r.decodedHdrSize ≤ r.decodedHdr.length)
    (hm : malloc r.decodedHdrSize = some block) (hb : block.length = r.decodedHdrSize) :
    decodeToHDR jpegr malloc self jpegrData jpegrDataSize out outputPixelFormat maxDisplayBoost =
      .returned true self
        { outputData := some (r.decodedHdr.take r.decodedHdrSize),
          outputDataSize := r.decodedHdrSize, width := w, height := h } ∧
    (r.decodedHdr.take r.decodedHdrSize).length = r.decodedHdrSize := by
  refine ⟨decodeToHDR_ok jpegr malloc self jpegrData jpegrDataSize out outputPixelFormat
    maxDisplayBoost r w h block he hs hn hm hb, ?_⟩
  rw [List.length_take]; omega

/-- Witness of C3: the engine stub decodes to the three bytes 7, 8, 9 of a
2 by 1 image, and `malloc` hands out zeroed blocks of the requested size. -/
theorem decode_success_outputs_witness :
    decodeToHDR (JpegR.stub .threwOther ⟨.returned ⟨0, [7, 8, 9], 3⟩, 2, 1⟩ .threwOther)
        (fun n => some (List.replicate n 0)) ⟨"old"⟩ [1, 2] 2 ⟨some [4], 1, 0, 0⟩ 0 1065353216 =
      .returned true ⟨"old"⟩ ⟨some [7, 8, 9], 3, 2, 1⟩ ∧
    ([7, 8, 9] : List Byte).length = 3 :=
  decode_success_outputs
    (JpegR.stub .threwOther ⟨.returned ⟨0, [7, 8, 9], 3⟩, 2, 1⟩ .threwOther)
    (fun n => some (List.replicate n 0)) ⟨"old"⟩ [1, 2] 2 ⟨some [4], 1, 0, 0⟩ 0 1065353216
    ⟨0, [7, 8, 9], 3⟩ 2 1 [0, 0, 0] rfl rfl (by decide) rfl rfl

/-- C4: `decodeToHDR` reports its two failure kinds with different texts.  An
engine status `s` other than `OK` gives false and "Failed to decode JPEGR: "
followed by the decimal value of `s`; an `OK` decode whose output block cannot
be allocated gives false and "Failed to allocate memory for decoded data"; and
for no status are the two texts equal. -/
theorem decode_failures_distinguishable (jpegr : JpegR) (malloc : Nat → Option (List Byte))
    (self : UltraHDRWrapper) (jpegrData : List Byte) (jpegrDataSize : Nat) (out : DecodeOutputs)
    (outputPixelFormat : Int) (maxDisplayBoost : CFloat) (r : DecodeOut) (w h : Int)
    (he : jpegr.decodeJPEGR jpegrData (static_cast_unsigned_int jpegrDataSize) maxDisplayBoost
      outputPixelFormat out.width out.height = ⟨.returned r, w, h⟩) :
    (r.status ≠ jpegr.OK →
      ∃ out1, decodeToHDR jpegr malloc self jpegrData jpegrDataSize out outputPixelFormat
          maxDisplayBoost =
        .returned false { lastError_ := "Failed to decode JPEGR: " ++ toString r.status } out1) ∧
    (r.status = jpegr.OK → malloc r.decodedHdrSize = none →
      ∃ out1, decodeToHDR jpegr malloc self jpegrData jpegrDataSize out outputPixelFormat
          maxDisplayBoost =
        .returned false { lastError_ := "Failed to allocate memory for decoded data" } out1) ∧
    (∀ s : Status, ("Failed to decode JPEGR: " ++ toString s : String) ≠
      "Failed to allocate memory for decoded data") :=
  ⟨fun hs => ⟨_, decodeToHDR_failed jpegr malloc self jpegrData jpegrDataSize out
      outputPixelFormat maxDisplayBoost r w h he hs⟩,
    fun hs hm => ⟨_, decodeToHDR_no_memory jpegr malloc self jpegrData jpegrDataSize out
      outputPixelFormat maxDisplayBoost r w h he hs hm⟩,
    failed_to_decode_ne_failed_to_allocate⟩

/-- Witness of C4: the engine stub answers status `5`; and the engine stub
answers `OK` with a size of 3 while `malloc` returns the null pointer. -/
theorem decode_failures_distinguishable_witness :
    (∃ out1, decodeToHDR (JpegR.stub .threwOther ⟨.returned ⟨5, [], 0⟩, 0, 0⟩ .threwOther)
        (fun _ => none) ⟨"old"⟩ [1, 2] 2 ⟨none, 0, 0, 0⟩ 0 1065353216 =
      .returned false ⟨"Failed to decode JPEGR: 5"⟩ out1) ∧
    (∃ out1, decodeToHDR
        (JpegR.stub .threwOther ⟨.returned ⟨0, [7, 8, 9], 3⟩, 2, 1⟩ .threwOther)
        (fun _ => none) ⟨"old"⟩ [1, 2] 2 ⟨none, 0, 0, 0⟩ 0 1065353216 =
      .returned false ⟨"Failed to allocate memory for decoded data"⟩ out1) :=
  ⟨(decode_failures_distinguishable
      (JpegR.stub .threwOther ⟨.returned ⟨5, [], 0⟩, 0, 0⟩ .threwOther)
      (fun _ => none) ⟨"old"⟩ [1, 2] 2 ⟨none, 0, 0, 0⟩ 0 1065353216 ⟨5, [], 0⟩ 0 0 rfl).1
      (by decide),
    (decode_failures_distinguishable
      (JpegR.stub .threwOther ⟨.returned ⟨0, [7, 8, 9], 3⟩, 2, 1⟩ .threwOther)
      (fun _ => none) ⟨"old"⟩ [1, 2] 2 ⟨none, 0, 0, 0⟩ 0 1065353216 ⟨0, [7, 8, 9], 3⟩ 2 1
      rfl).2.1 rfl rfl⟩

/-- C5, counterexample: the engine stub decodes successfully to 3 bytes and
`malloc` returns the null pointer.  The call returns false, and the caller's
`outputData`, which pointed to a block, is null afterwards and its
`outputDataSize`, which was 1, is 3. -/
theorem decode_allocation_failure_overwrites_outputs :
    decodeToHDR (JpegR.stub .threwOther ⟨.returned ⟨0, [7, 8, 9], 3⟩, 2, 1⟩ .threwOther)
        (fun _ => none) ⟨"old"⟩ [1, 2] 2 ⟨some [4], 1, 0, 0⟩ 0 1065353216 =
      .returned false ⟨"Failed to allocate memory for decoded data"⟩ ⟨none, 3, 2, 1⟩ ∧
    (none : Option (List Byte)) ≠ some [4] ∧ (3 : Nat) ≠ 1 := by
  decide

/-- C5, amended: for every `decodeToHDR` call that returns false, if the engine
returned a status other than `OK` or threw a `std::exception`, then
`outputData` and `outputDataSize` hold the values they held before the call;
and if the engine returned `OK`, then the allocation failed, `outputData` is
the null pointer and `outputDataSize` is the size the engine reported. -/
theorem decode_failure_outputs (jpegr : JpegR) (malloc : Nat → Option (List Byte))
    (self : UltraHDRWrapper) (jpegrData : List Byte) (jpegrDataSize : Nat) (out : DecodeOutputs)
    (outputPixelFormat : Int) (maxDisplayBoost : CFloat) (self1 : UltraHDRWrapper)
    (out1 : DecodeOutputs)
    (hf : decodeToHDR jpegr malloc self jpegrData jpegrDataSize out outputPixelFormat
      maxDisplayBoost = .returned false self1 out1) :
    (∀ r : DecodeOut,
      (jpegr.decodeJPEGR jpegrData (static_cast_unsigned_int jpegrDataSize) maxDisplayBoost
        outputPixelFormat out.width out.height).result = .returned r →
      r.status ≠ jpegr.OK →
      out1.outputData = out.outputData ∧ out1.outputDataSize = out.outputDataSize) ∧
    (∀ what : String,
      (jpegr.decodeJPEGR jpegrData (static_cast_unsigned_int jpegrDataSize) maxDisplayBoost
        outputPixelFormat out.width out.height).result = .threw what →
      out1.outputData = out.outputData ∧ out1.outputDataSize = out.outputDataSize) ∧
    (∀ r : DecodeOut,
      (jpegr.decodeJPEGR jpegrData (static_cast_unsigned_int jpegrDataSize) maxDisplayBoost
        outputPixelFormat out.width out.height).result = .returned r →
      r.status = jpegr.OK →
      malloc r.decodedHdrSize = none ∧ out1.outputData = none ∧
        out1.outputDataSize = r.decodedHdrSize) := by
  unfold decodeToHDR at hf
  simp only at hf
  split at hf
  · rename_i r hr
    split at hf
    · rename_i hs
      injection hf with _ _ ho
      subst ho
      refine ⟨fun _ _ _ => ⟨rfl, rfl⟩, fun what hw => ?_, fun r2 h2 hs2 => ?_⟩
      · rw [hr] at hw; exact EngineResult.noConfusion hw
      · rw [hr] at h2
        injection h2 with h2
        subst h2
        exact absurd hs2 hs
    · rename_i hs
      have hs1 : r.status = jpegr.OK := by simpa using hs
      split at hf
      · rename_i hm
        injection hf with _ _ ho
        subst ho
        refine ⟨fun r2 h2 hs2 => ?_, fun what hw => ?_, fun r2 h2 _ => ?_⟩
        · rw [hr] at h2
          injection h2 with h2
          subst h2
          exact absurd hs1 hs2
        · rw [hr] at hw; exact EngineResult.noConfusion hw
        · rw [hr] at h2
          injection h2 with h2
          subst h2
          exact ⟨hm, hm, rfl⟩
      · split at hf
        · injection hf with hb
          exact absurd hb (by decide)
        · exact Outcome.noConfusion hf
  · rename_i what0 hr
    injection hf with _ _ ho
    subst ho
    refine ⟨fun _ _ _ => ⟨rfl, rfl⟩, fun _ _ => ⟨rfl, rfl⟩, fun r2 h2 _ => ?_⟩
    rw [hr] at h2; exact EngineResult.noConfusion h2
  · exact Outcome.noConfusion hf

/-- Witness of C5, amended: a call failing on engine status `5` keeps the
caller's block and size; a call failing on allocation nulls the pointer and
stores the reported size 3. -/
theorem decode_failure_outputs_witness :
    (decodeToHDR (JpegR.stub .threwOther ⟨.returned ⟨5, [], 0⟩, 0, 0⟩ .threwOther)
        (fun _ => none) ⟨"old"⟩ [1, 2] 2 ⟨some [4], 1, 0, 0⟩ 0 1065353216 =
      .returned false ⟨"Failed to decode JPEGR: 5"⟩ ⟨some [4], 1, 0, 0⟩ ∧
      (some [4] : Option (List Byte)) = some [4] ∧ (1 : Nat) = 1) ∧
    (decodeToHDR (JpegR.stub .threwOther ⟨.returned ⟨0, [7, 8, 9], 3⟩, 2, 1⟩ .threwOther)
        (fun _ => none) ⟨"old"⟩ [1, 2] 2 ⟨some [4], 1, 0, 0⟩ 0 1065353216 =
      .returned false ⟨"Failed to allocate memory for decoded data"⟩ ⟨none, 3, 2, 1⟩ ∧
      (fun _ => none : Nat → Option (List Byte)) 3 = none ∧
      (none : Option (List Byte)) = none ∧ (3 : Nat) = 3) :=
  ⟨⟨by decide,
    (decode_failure_outputs
      (JpegR.stub .threwOther ⟨.returned ⟨5, [], 0⟩, 0, 0⟩ .threwOther)
      (fun _ => none) ⟨"old"⟩ [1, 2] 2 ⟨some [4], 1, 0, 0⟩ 0 1065353216
      ⟨"Failed to decode JPEGR: 5"⟩ ⟨some [4], 1, 0, 0⟩ (by decide)).1 ⟨5, [], 0⟩ rfl
      (by decide)⟩,
    ⟨by decide,
    (decode_failure_outputs
      (JpegR.stub .threwOther ⟨.returned ⟨0, [7, 8, 9], 3⟩, 2, 1⟩ .threwOther)
      (fun _ => none) ⟨"old"⟩ [1, 2] 2 ⟨some [4], 1, 0, 0⟩ 0 1065353216
      ⟨"Failed to allocate memory for decoded data"⟩ ⟨none, 3, 2, 1⟩ (by decide)).2.2
      ⟨0, [7, 8, 9], 3⟩ rfl rfl⟩⟩

/-! ## Detection and exceptions -/

/-- C6: `isUltraHDRImage` returns true exactly when the engine's `isJPEGR`
returns the status `OK`.  When the engine returns a status `s` the method
returns whether `s` is `OK` and leaves the object alone; when the engine throws
a `std::exception` with message `m` the method returns false and the
last-error text is "Exception during isUltraHDRImage: " followed by `m`. -/
theorem isUltraHDRImage_iff_engine_ok (jpegr : JpegR) (self : UltraHDRWrapper)
    (jpegData : List Byte) (jpegSize : Nat) :
    ((isUltraHDRImage jpegr self jpegData jpegSize).result? = some true ↔
      jpegr.isJPEGR jpegData (static_cast_unsigned_int jpegSize) = .returned jpegr.OK) ∧
    (∀ s : Status, jpegr.isJPEGR jpegData (static_cast_unsigned_int jpegSize) = .returned s →
      isUltraHDRImage jpegr self jpegData jpegSize =
        .returned (decide (s = jpegr.OK)) self ()) ∧
    (∀ s : Status, jpegr.isJPEGR jpegData (static_cast_unsigned_int jpegSize) = .returned s →
      s ≠ jpegr.OK → isUltraHDRImage jpegr self jpegData jpegSize = .returned false self ()) ∧
    (∀ m : String, jpegr.isJPEGR jpegData (static_cast_unsigned_int jpegSize) = .threw m →
      isUltraHDRImage jpegr self jpegData jpegSize =
        .returned false { lastError_ := "Exception during isUltraHDRImage: " ++ m } ()) := by
  refine ⟨?_, ?_, ?_, ?_⟩
  · unfold isUltraHDRImage
    cases h : jpegr.isJPEGR jpegData (static_cast_unsigned_int jpegSize) with
    | returned s => simp [Outcome.result?]
    | threw m => simp [Outcome.result?]
    | threwOther => simp [Outcome.result?]
  · intro s h
    simp [isUltraHDRImage, h]
  · intro s h hs
    simp [isUltraHDRImage, h, hs]
  · intro m h
    simp [isUltraHDRImage, h, setError]

/-- Witness of C6: the engine stub answers `OK`, answers status `1`, and throws
with the message "bad marker". -/
theorem isUltraHDRImage_iff_engine_ok_witness :
    isUltraHDRImage (JpegR.stub .threwOther ⟨.threwOther, 0, 0⟩ (.returned 0)) ⟨"old"⟩ [1] 1 =
      .returned true ⟨"old"⟩ () ∧
    isUltraHDRImage (JpegR.stub .threwOther ⟨.threwOther, 0, 0⟩ (.returned 1)) ⟨"old"⟩ [1] 1 =
      .returned false ⟨"old"⟩ () ∧
    isUltraHDRImage (JpegR.stub .threwOther ⟨.threwOther, 0, 0⟩ (.threw "bad marker")) ⟨"old"⟩
        [1] 1 =
      .returned false ⟨"Exception during isUltraHDRImage: bad marker"⟩ () :=
  ⟨(isUltraHDRImage_iff_engine_ok
      (JpegR.stub .threwOther ⟨.threwOther, 0, 0⟩ (.returned 0)) ⟨"old"⟩ [1] 1).2.1 0 rfl,
    (isUltraHDRImage_iff_engine_ok
      (JpegR.stub .threwOther ⟨.threwOther, 0, 0⟩ (.returned 1)) ⟨"old"⟩ [1] 1).2.2.1 1 rfl
      (by decide),
    (isUltraHDRImage_iff_engine_ok
      (JpegR.stub .threwOther ⟨.threwOther, 0, 0⟩ (.threw "bad marker")) ⟨"old"⟩ [1] 1).2.2.2
      "bad marker" rfl⟩

/-- C9, counterexample: `encodeFromHDROnly` is given a buffer of `2 ^ 32` bytes
and its length; the probing engine reports that it received the length 0. -/
theorem length_of_four_gibibytes_arrives_as_zero :
    encodeFromHDROnly JpegR.lengthProbe ⟨""⟩ (List.replicate 4294967296 0) 4294967296 65536
        16384 1 90 [] =
      .returned false ⟨"Exception during encoding: 0"⟩ [] ∧
    (0 : Nat) ≠ 4294967296 := by
  decide

/-- C9, amended: the length the engine receives is the caller's length reduced
modulo `2 ^ 32`; it is the caller's length itself when that is below `2 ^ 32`.
Stated through the probing engine, whose message is what it received, for the
six methods and all their length arguments. -/
theorem engine_receives_length_mod_two_pow_32 (self : UltraHDRWrapper) (d1 d2 : List Byte)
    (n1 n2 : Nat) (width height f1 f2 quality : Int) (outputData : List Byte)
    (malloc : Nat → Option (List Byte)) (out : DecodeOutputs) (boost : CFloat) :
    (encodeFromHDROnly JpegR.lengthProbe self d1 n1 width height f1 quality outputData =
        .returned false
          { lastError_ := "Exception during encoding: " ++ toString (n1 % 4294967296) }
          outputData ∧
      encodeFromHDRAndSDR JpegR.lengthProbe self d1 n1 f1 d2 n2 f2 width height quality
          outputData =
        .returned false
          { lastError_ := "Exception during encoding: " ++
              (toString (n1 % 4294967296) ++ "," ++ toString (n2 % 4294967296)) }
          outputData ∧
      encodeFromHDRAndCompressedSDR JpegR.lengthProbe self d1 n1 f1 d2 n2 width height
          outputData =
        .returned false
          { lastError_ := "Exception during encoding: " ++
              (toString (n1 % 4294967296) ++ "," ++ toString (n2 % 4294967296)) }
          outputData ∧
      encodeFromCompressedSDRAndGainmap JpegR.lengthProbe self d1 n1 d2 n2 outputData =
        .returned false
          { lastError_ := "Exception during encoding: " ++
              (toString (n1 % 4294967296) ++ "," ++ toString (n2 % 4294967296)) }
          outputData ∧
      decodeToHDR JpegR.lengthProbe malloc self d1 n1 out f1 boost =
        .returned false
          { lastError_ := "Exception during decoding: " ++ toString (n1 % 4294967296) } out ∧
      isUltraHDRImage JpegR.lengthProbe self d1 n1 =
        .returned false
          { lastError_ := "Exception during isUltraHDRImage: " ++ toString (n1 % 4294967296) }
          ()) ∧
    (n1 < 4294967296 → n2 < 4294967296 →
      encodeFromHDROnly JpegR.lengthProbe self d1 n1 width height f1 quality outputData =
        .returned false { lastError_ := "Exception during encoding: " ++ toString n1 }
          outputData ∧
      encodeFromHDRAndSDR JpegR.lengthProbe self d1 n1 f1 d2 n2 f2 width height quality
          outputData =
        .returned false
          { lastError_ := "Exception during encoding: " ++
              (toString n1 ++ "," ++ toString n2) }
          outputData ∧
      encodeFromHDRAndCompressedSDR JpegR.lengthProbe self d1 n1 f1 d2 n2 width height
          outputData =
        .returned false
          { lastError_ := "Exception during encoding: " ++
              (toString n1 ++ "," ++ toString n2) }
          outputData ∧
      encodeFromCompressedSDRAndGainmap JpegR.lengthProbe self d1 n1 d2 n2 outputData =
        .returned false
          { lastError_ := "Exception during encoding: " ++
              (toString n1 ++ "," ++ toString n2) }
          outputData ∧
      decodeToHDR JpegR.lengthProbe malloc self d1 n1 out f1 boost =
        .returned false { lastError_ := "Exception during decoding: " ++ toString n1 } out ∧
      isUltraHDRImage JpegR.lengthProbe self d1 n1 =
        .returned false { lastError_ := "Exception during isUltraHDRImage: " ++ toString n1 }
          ()) := by
  have key :
      encodeFromHDROnly JpegR.lengthProbe self d1 n1 width height f1 quality outputData =
        .returned false
          { lastError_ := "Exception during encoding: " ++ toString (n1 % 4294967296) }
          outputData ∧
      encodeFromHDRAndSDR JpegR.lengthProbe self d1 n1 f1 d2 n2 f2 width height quality
          outputData =
        .returned false
          { lastError_ := "Exception during encoding: " ++
              (toString (n1 % 4294967296) ++ "," ++ toString (n2 % 4294967296)) }
          outputData ∧
      encodeFromHDRAndCompressedSDR JpegR.lengthProbe self d1 n1 f1 d2 n2 width height
          outputData =
        .returned false
          { lastError_ := "Exception during encoding: " ++
              (toString (n1 % 4294967296) ++ "," ++ toString (n2 % 4294967296)) }
          outputData ∧
      encodeFromCompressedSDRAndGainmap JpegR.lengthProbe self d1 n1 d2 n2 outputData =
        .returned false
          { lastError_ := "Exception during encoding: " ++
              (toString (n1 % 4294967296) ++ "," ++ toString (n2 % 4294967296)) }
          outputData ∧
      decodeToHDR JpegR.lengthProbe malloc self d1 n1 out f1 boost =
        .returned false
          { lastError_ := "Exception during decoding: " ++ toString (n1 % 4294967296) } out ∧
      isUltraHDRImage JpegR.lengthProbe self d1 n1 =
        .returned false
          { lastError_ := "Exception during isUltraHDRImage: " ++ toString (n1 % 4294967296) }
          () :=
    ⟨rfl, rfl, rfl, rfl, rfl, rfl⟩
  refine ⟨key, fun h1 h2 => ?_⟩
  rw [Nat.mod_eq_of_lt h1, Nat.mod_eq_of_lt h2] at key
  exact key

/-- Witness of C9, amended: the lengths 1024 and 512 arrive unchanged. -/
theorem engine_receives_length_mod_two_pow_32_witness :
    encodeFromHDRAndSDR JpegR.lengthProbe ⟨""⟩ [1] 1024 1 [2] 512 0 16 16 90 [] =
      .returned false ⟨"Exception during encoding: 1024,512"⟩ [] :=
  ((engine_receives_length_mod_two_pow_32 ⟨""⟩ [1] [2] 1024 512 16 16 1 0 90 []
    (fun _ => none) ⟨none, 0, 0, 0⟩ 1065353216).2 (by decide) (by decide)).2.1

/-! ## Independence of the stored last-error text -/

theorem encodeTail_result_indep (OK : Status) (s1 s2 : UltraHDRWrapper)
    (e : EngineResult EncodeOut) (outputData : List Byte) :
    (encodeTail OK s1 e outputData).result? = (encodeTail OK s2 e outputData).result? ∧
    (encodeTail OK s1 e outputData).out? = (encodeTail OK s2 e outputData).out? := by
  unfold encodeTail
  cases e with
  | returned r =>
    by_cases hs : r.status = OK
    · cases hm : memcpy (resize outputData r.compressedJpegRSize) r.compressedJpegR
        r.compressedJpegRSize <;> simp [hs, hm, Outcome.result?, Outcome.out?]
    · simp [hs, Outcome.result?, Outcome.out?]
  | threw what => simp [Outcome.result?, Outcome.out?]
  | threwOther => simp [Outcome.result?, Outcome.out?]

theorem encodeTail_false_self (OK : Status) (s1 s2 : UltraHDRWrapper)
    (e : EngineResult EncodeOut) (outputData : List Byte)
    (hf : (encodeTail OK s1 e outputData).result? = some false) :
    (encodeTail OK s1 e outputData).self? = (encodeTail OK s2 e outputData).self? := by
  unfold encodeTail at hf ⊢
  cases e with
  | returned r =>
    by_cases hs : r.status = OK
    · cases hm : memcpy (resize outputData r.compressedJpegRSize) r.compressedJpegR
        r.compressedJpegRSize <;> simp [hs, hm, Outcome.result?] at hf
    · simp [hs, Outcome.self?, setError]
  | threw what => simp [Outcome.self?, setError]
  | threwOther => simp [Outcome.result?] at hf

theorem encodeTail_not_false_self (OK : Status) (s w : UltraHDRWrapper)
    (e : EngineResult EncodeOut) (outputData : List Byte)
    (hf : (encodeTail OK s e outputData).result? ≠ some false)
    (hw : (encodeTail OK s e outputData).self? = some w) : w = s := by
  unfold encodeTail at hf hw
  cases e with
  | returned r =>
    by_cases hs : r.status = OK
    · cases hm : memcpy (resize outputData r.compressedJpegRSize) r.compressedJpegR
        r.compressedJpegRSize <;> simp [hs, hm, Outcome.self?] at hw
      exact hw.symm
    · simp [hs, Outcome.result?] at hf
  | threw what => simp [Outcome.result?] at hf
  | threwOther =>
    simp [Outcome.self?] at hw
    exact hw.symm

theorem decodeToHDR_result_indep (jpegr : JpegR) (malloc : Nat → Option (List Byte))
    (s1 s2 : UltraHDRWrapper) (jpegrData : List Byte) (jpegrDataSize : Nat) (out : DecodeOutputs)
    (outputPixelFormat : Int) (maxDisplayBoost : CFloat) :
    (decodeToHDR jpegr malloc s1 jpegrData jpegrDataSize out outputPixelFormat
        maxDisplayBoost).result? =
      (decodeToHDR jpegr malloc s2 jpegrData jpegrDataSize out outputPixelFormat
        maxDisplayBoost).result? ∧
    (decodeToHDR jpegr malloc s1 jpegrData jpegrDataSize out outputPixelFormat
        maxDisplayBoost).out? =
      (decodeToHDR jpegr malloc s2 jpegrData jpegrDataSize out outputPixelFormat
        maxDisplayBoost).out? := by
  unfold decodeToHDR
  simp only
  cases (jpegr.decodeJPEGR jpegrData (static_cast_unsigned_int jpegrDataSize) maxDisplayBoost
      outputPixelFormat out.width out.height).result with
  | returned r =>
    by_cases hs : r.status = jpegr.OK
    · cases hm : malloc r.decodedHdrSize with
      | none => simp [hs, hm, Outcome.result?, Outcome.out?]
      | some block =>
        cases hc : memcpy block r.decodedHdr r.decodedHdrSize <;>
          simp [hs, hm, hc, Outcome.result?, Outcome.out?]
    · simp [hs, Outcome.result?, Outcome.out?]
  | threw what => simp [Outcome.result?, Outcome.out?]
  | threwOther => simp [Outcome.result?, Outcome.out?]

theorem decodeToHDR_false_self (jpegr : JpegR) (malloc : Nat → Option (List Byte))
    (s1 s2 : UltraHDRWrapper) (jpegrData : List Byte) (jpegrDataSize : Nat) (out : DecodeOutputs)
    (outputPixelFormat : Int) (maxDisplayBoost : CFloat)
    (hf : (decodeToHDR jpegr malloc s1 jpegrData jpegrDataSize out outputPixelFormat
      maxDisplayBoost).result? = some false) :
    (decodeToHDR jpegr malloc s1 jpegrData jpegrDataSize out outputPixelFormat
        maxDisplayBoost).self? =
      (decodeToHDR jpegr malloc s2 jpegrData jpegrDataSize out outputPixelFormat
        maxDisplayBoost).self? := by
  unfold decodeToHDR at hf ⊢
  simp only at hf ⊢
  cases he : (jpegr.decodeJPEGR jpegrData (static_cast_unsigned_int jpegrDataSize)
      maxDisplayBoost outputPixelFormat out.width out.height).result with
  | returned r =>
    rw [he] at hf
    by_cases hs : r.status = jpegr.OK
    · cases hm : malloc r.decodedHdrSize with
      | none => simp [hs, hm, Outcome.self?, setError]
      | some block =>
        cases hc : memcpy block r.decodedHdr r.decodedHdrSize <;>
          simp [hs, hm, hc, Outcome.result?] at hf
    · simp [hs, Outcome.self?, setError]
  | threw what => simp [Outcome.self?, setError]
  | threwOther =>
    rw [he] at hf
    simp [Outcome.result?] at hf

theorem decodeToHDR_not_false_self (jpegr : JpegR) (malloc : Nat → Option (List Byte))
    (s w : UltraHDRWrapper) (jpegrData : List Byte) (jpegrDataSize : Nat) (out : DecodeOutputs)
    (outputPixelFormat : Int) (maxDisplayBoost : CFloat)
    (hf : (decodeToHDR jpegr malloc s jpegrData jpegrDataSize out outputPixelFormat
      maxDisplayBoost).result? ≠ some false)
    (hw : (decodeToHDR jpegr malloc s jpegrData jpegrDataSize out outputPixelFormat
      maxDisplayBoost).self? = some w) : w = s := by
  unfold decodeToHDR at hf hw
  simp only at hf hw
  cases he : (jpegr.decodeJPEGR jpegrData (static_cast_unsigned_int jpegrDataSize)
      maxDisplayBoost outputPixelFormat out.width out.height).result with
  | returned r =>
    rw [he] at hf hw
    by_cases hs : r.status = jpegr.OK
    · cases hm : malloc r.decodedHdrSize with
      | none => simp [hs, hm, Outcome.result?] at hf
      | some block =>
        cases hc : memcpy block r.decodedHdr r.decodedHdrSize <;>
          simp [hs, hm, hc, Outcome.self?] at hw
        exact hw.symm
    · simp [hs, Outcome.result?] at hf
  | threw what =>
    rw [he] at hf
    simp [Outcome.result?] at hf
  | threwOther =>
    rw [he] at hw
    simp [Outcome.self?] at hw
    exact hw.symm

theorem isUltraHDRImage_result_indep (jpegr : JpegR) (s1 s2 : UltraHDRWrapper)
    (jpegData : List Byte) (jpegSize : Nat) :
    (isUltraHDRImage jpegr s1 jpegData jpegSize).result? =
      (isUltraHDRImage jpegr s2 jpegData jpegSize).result? ∧
    (isUltraHDRImage jpegr s1 jpegData jpegSize).out? =
      (isUltraHDRImage jpegr s2 jpegData jpegSize).out? := by
  unfold isUltraHDRImage
  cases jpegr.isJPEGR jpegData (static_cast_unsigned_int jpegSize) <;>
    simp [Outcome.result?, Outcome.out?]

theorem isUltraHDRImage_threw_self (jpegr : JpegR) (s1 s2 : UltraHDRWrapper)
    (jpegData : List Byte) (jpegSize : Nat) (m : String)
    (he : jpegr.isJPEGR jpegData (static_cast_unsigned_int jpegSize) = .threw m) :
    (isUltraHDRImage jpegr s1 jpegData jpegSize).self? =
      (isUltraHDRImage jpegr s2 jpegData jpegSize).self? := by
  simp [isUltraHDRImage, he, Outcome.self?, setError]

theorem isUltraHDRImage_not_threw_self (jpegr : JpegR) (s : UltraHDRWrapper)
    (jpegData : List Byte) (jpegSize : Nat)
    (he : ∀ m, jpegr.isJPEGR jpegData (static_cast_unsigned_int jpegSize) ≠ .threw m) :
    (isUltraHDRImage jpegr s jpegData jpegSize).self? = some s := by
  unfold isUltraHDRImage
  cases h : jpegr.isJPEGR jpegData (static_cast_unsigned_int jpegSize) with
  | returned st => simp [Outcome.self?]
  | threw m => exact absurd h (he m)
  | threwOther => simp [Outcome.self?]

/-- A call that does not fail leaves the object as it was. -/
theorem Call.exec_of_not_fails (c : Call) (w w1 : UltraHDRWrapper) (he : c.exec w = some w1)
    (hf : c.fails = false) : w1 = w := by
  cases c with
  | encodeFromHDROnly j a b c d e f o =>
    simp only [Call.fails, Call.result?, beq_eq_false_iff_ne, ne_eq,
      encodeFromHDROnly_eq_tail] at hf
    simp only [Call.exec, encodeFromHDROnly_eq_tail] at he
    rw [(encodeTail_result_indep _ new w _ _).1] at hf
    exact encodeTail_not_false_self _ _ _ _ _ hf he
  | encodeFromHDRAndSDR j a b c d e f g h i o =>
    simp only [Call.fails, Call.result?, beq_eq_false_iff_ne, ne_eq,
      encodeFromHDRAndSDR_eq_tail] at hf
    simp only [Call.exec, encodeFromHDRAndSDR_eq_tail] at he
    rw [(encodeTail_result_indep _ new w _ _).1] at hf
    exact encodeTail_not_false_self _ _ _ _ _ hf he
  | encodeFromHDRAndCompressedSDR j a b c d e f g o =>
    simp only [Call.fails, Call.result?, beq_eq_false_iff_ne, ne_eq,
      encodeFromHDRAndCompressedSDR_eq_tail] at hf
    simp only [Call.exec, encodeFromHDRAndCompressedSDR_eq_tail] at he
    rw [(encodeTail_result_indep _ new w _ _).1] at hf
    exact encodeTail_not_false_self _ _ _ _ _ hf he
  | encodeFromCompressedSDRAndGainmap j a b c d o =>
    simp only [Call.fails, Call.result?, beq_eq_false_iff_ne, ne_eq,
      encodeFromCompressedSDRAndGainmap_eq_tail] at hf
    simp only [Call.exec, encodeFromCompressedSDRAndGainmap_eq_tail] at he
    rw [(encodeTail_result_indep _ new w _ _).1] at hf
    exact encodeTail_not_false_self _ _ _ _ _ hf he
  | decodeToHDR j m a b o f x =>
    simp only [Call.fails, Call.result?, beq_eq_false_iff_ne, ne_eq] at hf
    simp only [Call.exec] at he
    rw [(decodeToHDR_result_indep j m new w a b o f x).1] at hf
    exact decodeToHDR_not_false_self j m w w1 a b o f x hf he
  | isUltraHDRImage j a b =>
    simp only [Call.exec] at he
    have hn : ∀ m, j.isJPEGR a (static_cast_unsigned_int b) ≠ .threw m := by
      intro m hm
      simp [Call.fails, hm] at hf
    rw [isUltraHDRImage_not_threw_self j w a b hn] at he
    injection he with he
    exact he.symm
  | getLastError =>
    simp only [Call.exec] at he
    injection he with he
    exact he.symm

/-- A call that fails leaves the text it records, whatever the object held. -/
theorem Call.exec_of_fails (c : Call) (w w1 : UltraHDRWrapper) (he : c.exec w = some w1)
    (hf : c.fails = true) : w1.getLastError = c.recorded := by
  have key : c.exec new = c.exec w := by
    cases c with
    | encodeFromHDROnly j a b c d e f o =>
      simp only [Call.fails, Call.result?, beq_iff_eq, encodeFromHDROnly_eq_tail] at hf
      simp only [Call.exec, encodeFromHDROnly_eq_tail]
      exact encodeTail_false_self _ _ _ _ _ hf
    | encodeFromHDRAndSDR j a b c d e f g h i o =>
      simp only [Call.fails, Call.result?, beq_iff_eq, encodeFromHDRAndSDR_eq_tail] at hf
      simp only [Call.exec, encodeFromHDRAndSDR_eq_tail]
      exact encodeTail_false_self _ _ _ _ _ hf
    | encodeFromHDRAndCompressedSDR j a b c d e f g o =>
      simp only [Call.fails, Call.result?, beq_iff_eq,
        encodeFromHDRAndCompressedSDR_eq_tail] at hf
      simp only [Call.exec, encodeFromHDRAndCompressedSDR_eq_tail]
      exact encodeTail_false_self _ _ _ _ _ hf
    | encodeFromCompressedSDRAndGainmap j a b c d o =>
      simp only [Call.fails, Call.result?, beq_iff_eq,
        encodeFromCompressedSDRAndGainmap_eq_tail] at hf
      simp only [Call.exec, encodeFromCompressedSDRAndGainmap_eq_tail]
      exact encodeTail_false_self _ _ _ _ _ hf
    | decodeToHDR j m a b o f x =>
      simp only [Call.fails, Call.result?, beq_iff_eq] at hf
      simp only [Call.exec]
      exact decodeToHDR_false_self j m new w a b o f x hf
    | isUltraHDRImage j a b =>
      simp only [Call.exec]
      cases hm : j.isJPEGR a (static_cast_unsigned_int b) with
      | returned st => simp [Call.fails, hm] at hf
      | threw m => exact isUltraHDRImage_threw_self j new w a b m hm
      | threwOther => simp [Call.fails, hm] at hf
    | getLastError => simp [Call.fails] at hf
  simp only [Call.recorded, key, he]

theorem runAll_append_singleton (cs : List Call) (c : Call) (w : UltraHDRWrapper) :
    runAll (cs ++ [c]) w = (runAll cs w).bind c.exec := by
  induction cs generalizing w with
  | nil =>
    simp only [List.nil_append, runAll, Option.some_bind]
    cases c.exec w <;> rfl
  | cons d ds ih =>
    simp only [List.cons_append, runAll]
    cases d.exec w with
    | none => rfl
    | some w1 => exact ih w1

/-- After a sequence of calls the last-error text is the one recorded by the
most recent failing call, and the text the object started with when no call
of the sequence fails. -/
theorem runAll_lastError (calls : List Call) (w w1 : UltraHDRWrapper)
    (hr : runAll calls w = some w1) :
    w1.getLastError =
      match calls.reverse.find? Call.fails with
      | some c => c.recorded
      | none => w.getLastError := by
  induction calls using List.reverseRecOn generalizing w1 with
  | nil =>
    simp only [runAll, Option.some.injEq] at hr
    simp [hr]
  | append_singleton cs c ih =>
    rw [runAll_append_singleton] at hr
    cases hm : runAll cs w with
    | none => simp [hm] at hr
    | some wm =>
      rw [hm, Option.some_bind] at hr
      cases hf : c.fails with
      | true =>
        simp only [List.reverse_append, List.reverse_cons, List.reverse_nil, List.nil_append,
          List.singleton_append, List.find?_cons, hf]
        exact Call.exec_of_fails c wm w1 hr hf
      | false =>
        simp only [List.reverse_append, List.reverse_cons, List.reverse_nil, List.nil_append,
          List.singleton_append, List.find?_cons, hf]
        rw [Call.exec_of_not_fails c wm w1 hr hf]
        exact ih wm hm

theorem Outcome.self?_of_result? {α : Type} (o : Outcome α) (b : Bool)
    (h : o.result? = some b) : ∃ w, o.self? = some w := by
  cases o with
  | returned r w out => exact ⟨w, rfl⟩
  | propagated w out => simp [Outcome.result?] at h
  | undefined => simp [Outcome.result?] at h

/-- A call that returns true leaves the object as it was. -/
theorem Call.exec_of_result_true (c : Call) (w : UltraHDRWrapper)
    (h : c.result? w = some true) : c.exec w = some w := by
  have hne : c.result? w ≠ some false := by rw [h]; decide
  cases c with
  | encodeFromHDROnly j a b c d e f o =>
    simp only [Call.result?, Call.exec, encodeFromHDROnly_eq_tail] at h hne ⊢
    obtain ⟨w1, hw1⟩ := Outcome.self?_of_result? _ _ h
    rw [hw1, encodeTail_not_false_self _ _ _ _ _ hne hw1]
  | encodeFromHDRAndSDR j a b c d e f g h1 i o =>
    simp only [Call.result?, Call.exec, encodeFromHDRAndSDR_eq_tail] at h hne ⊢
    obtain ⟨w1, hw1⟩ := Outcome.self?_of_result? _ _ h
    rw [hw1, encodeTail_not_false_self _ _ _ _ _ hne hw1]
  | encodeFromHDRAndCompressedSDR j a b c d e f g o =>
    simp only [Call.result?, Call.exec, encodeFromHDRAndCompressedSDR_eq_tail] at h hne ⊢
    obtain ⟨w1, hw1⟩ := Outcome.self?_of_result? _ _ h
    rw [hw1, encodeTail_not_false_self _ _ _ _ _ hne hw1]
  | encodeFromCompressedSDRAndGainmap j a b c d o =>
    simp only [Call.result?, Call.exec, encodeFromCompressedSDRAndGainmap_eq_tail] at h hne ⊢
    obtain ⟨w1, hw1⟩ := Outcome.self?_of_result? _ _ h
    rw [hw1, encodeTail_not_false_self _ _ _ _ _ hne hw1]
  | decodeToHDR j m a b o f x =>
    simp only [Call.result?, Call.exec] at h hne ⊢
    obtain ⟨w1, hw1⟩ := Outcome.self?_of_result? _ _ h
    rw [hw1, decodeToHDR_not_false_self j m w w1 a b o f x hne hw1]
  | isUltraHDRImage j a b =>
    simp only [Call.result?, Call.exec] at h ⊢
    apply isUltraHDRImage_not_threw_self
    intro m hm
    simp [UltraHDRWrapper.isUltraHDRImage, hm, Outcome.result?] at h
  | getLastError => rfl

/-! ## The last-error text over a session -/

/-- C8: the last-error text is empty on a freshly constructed object;
`getLastError` does not change the object; every encode or decode call that
returns true, and every `isUltraHDRImage` call in which the engine throws no
`std::exception`, leaves the object, hence the text, exactly as it was; and
after any sequence of calls on a fresh object `getLastError` returns the text
recorded by the most recent failing call, or the empty string when none
failed. -/
theorem last_error_retained_until_next_failure :
    UltraHDRWrapper.new.getLastError = "" ∧
    (∀ w : UltraHDRWrapper, Call.getLastError.exec w = some w) ∧
    (∀ (c : Call) (w : UltraHDRWrapper), c.result? w = some true → c.exec w = some w) ∧
    (∀ (jpegr : JpegR) (w : UltraHDRWrapper) (jpegData : List Byte) (jpegSize : Nat),
      (∀ m, jpegr.isJPEGR jpegData (static_cast_unsigned_int jpegSize) ≠ .threw m) →
      (isUltraHDRImage jpegr w jpegData jpegSize).self? = some w) ∧
    (∀ (calls : List Call) (w1 : UltraHDRWrapper),
      runAll calls UltraHDRWrapper.new = some w1 → w1.getLastError = lastRecorded calls) := by
  refine ⟨rfl, fun _ => rfl, Call.exec_of_result_true, ?_, ?_⟩
  · intro jpegr w jpegData jpegSize hn
    exact isUltraHDRImage_not_threw_self jpegr w jpegData jpegSize hn
  · intro calls w1 hr
    have h := runAll_lastError calls UltraHDRWrapper.new w1 hr
    unfold lastRecorded
    cases hfind : calls.reverse.find? Call.fails with
    | none => rw [hfind] at h; exact h
    | some c => rw [hfind] at h; exact h

/-- Witness of C8: an encode that fails on status `-3`, a detection answered
with status `1`, an encode that succeeds, a decode that succeeds and a
`getLastError`, in that order on a fresh object; the text at the end is the
one the first call recorded. -/
theorem last_error_retained_until_next_failure_witness :
    runAll
        [Call.encodeFromHDROnly
            (JpegR.stub (.returned ⟨-3, [], 0⟩) ⟨.threwOther, 0, 0⟩ .threwOther)
            [5] 1 1 1 2 90 [],
          Call.isUltraHDRImage (JpegR.stub .threwOther ⟨.threwOther, 0, 0⟩ (.returned 1)) [1] 1,
          Call.encodeFromCompressedSDRAndGainmap
            (JpegR.stub (.returned ⟨0, [7, 8, 9], 2⟩) ⟨.threwOther, 0, 0⟩ .threwOther)
            [5] 1 [6] 1 [],
          Call.decodeToHDR
            (JpegR.stub .threwOther ⟨.returned ⟨0, [7, 8, 9], 3⟩, 2, 1⟩ .threwOther)
            (fun n => some (List.replicate n 0)) [1, 2] 2 ⟨none, 0, 0, 0⟩ 0 1065353216,
          Call.getLastError]
        UltraHDRWrapper.new = some ⟨"Failed to encode JPEGR: -3"⟩ ∧
    "Failed to encode JPEGR: -3" =
      lastRecorded
        [Call.encodeFromHDROnly
            (JpegR.stub (.returned ⟨-3, [], 0⟩) ⟨.threwOther, 0, 0⟩ .threwOther)
            [5] 1 1 1 2 90 [],
          Call.isUltraHDRImage (JpegR.stub .threwOther ⟨.threwOther, 0, 0⟩ (.returned 1)) [1] 1,
          Call.encodeFromCompressedSDRAndGainmap
            (JpegR.stub (.returned ⟨0, [7, 8, 9], 2⟩) ⟨.threwOther, 0, 0⟩ .threwOther)
            [5] 1 [6] 1 [],
          Call.decodeToHDR
            (JpegR.stub .threwOther ⟨.returned ⟨0, [7, 8, 9], 3⟩, 2, 1⟩ .threwOther)
            (fun n => some (List.replicate n 0)) [1, 2] 2 ⟨none, 0, 0, 0⟩ 0 1065353216,
          Call.getLastError] :=
  ⟨by decide, last_error_retained_until_next_failure.2.2.2.2 _ ⟨"Failed to encode JPEGR: -3"⟩
    (by decide)⟩

/-! ## No state but the last-error text -/

/-- C10: the stored last-error text is the only state a call can see, and it
does not see it.  For the six operations, run from two objects `s1` and `s2`
with the same arguments and the same engine (and allocator) behaviour: the
boolean result is the same, the output parameters are the same, and when the
call fails the object afterwards is the same, so the new last-error text does
not depend on the old one.  An encode or decode call fails when it returns
false; a detection call fails when the engine throws a `std::exception`. -/
theorem no_state_leaks_but_last_error (jpegr : JpegR) (malloc : Nat → Option (List Byte))
    (s1 s2 : UltraHDRWrapper) (d1 d2 : List Byte) (n1 n2 : Nat)
    (width height f1 f2 quality : Int) (outputData : List Byte) (out : DecodeOutputs)
    (boost : CFloat) :
    ((encodeFromHDROnly jpegr s1 d1 n1 width height f1 quality outputData).result? =
        (encodeFromHDROnly jpegr s2 d1 n1 width height f1 quality outputData).result? ∧
      (encodeFromHDROnly jpegr s1 d1 n1 width height f1 quality outputData).out? =
        (encodeFromHDROnly jpegr s2 d1 n1 width height f1 quality outputData).out? ∧
      ((encodeFromHDROnly jpegr s1 d1 n1 width height f1 quality outputData).result? =
          some false →
        (encodeFromHDROnly jpegr s1 d1 n1 width height f1 quality outputData).self? =
          (encodeFromHDROnly jpegr s2 d1 n1 width height f1 quality outputData).self?)) ∧
    ((encodeFromHDRAndSDR jpegr s1 d1 n1 f1 d2 n2 f2 width height quality outputData).result? =
        (encodeFromHDRAndSDR jpegr s2 d1 n1 f1 d2 n2 f2 width height quality
          outputData).result? ∧
      (encodeFromHDRAndSDR jpegr s1 d1 n1 f1 d2 n2 f2 width height quality outputData).out? =
        (encodeFromHDRAndSDR jpegr s2 d1 n1 f1 d2 n2 f2 width height quality outputData).out? ∧
      ((encodeFromHDRAndSDR jpegr s1 d1 n1 f1 d2 n2 f2 width height quality
          outputData).result? = some false →
        (encodeFromHDRAndSDR jpegr s1 d1 n1 f1 d2 n2 f2 width height quality
            outputData).self? =
          (encodeFromHDRAndSDR jpegr s2 d1 n1 f1 d2 n2 f2 width height quality
            outputData).self?)) ∧
    ((encodeFromHDRAndCompressedSDR jpegr s1 d1 n1 f1 d2 n2 width height outputData).result? =
        (encodeFromHDRAndCompressedSDR jpegr s2 d1 n1 f1 d2 n2 width height
          outputData).result? ∧
      (encodeFromHDRAndCompressedSDR jpegr s1 d1 n1 f1 d2 n2 width height outputData).out? =
        (encodeFromHDRAndCompressedSDR jpegr s2 d1 n1 f1 d2 n2 width height outputData).out? ∧
      ((encodeFromHDRAndCompressedSDR jpegr s1 d1 n1 f1 d2 n2 width height
          outputData).result? = some false →
        (encodeFromHDRAndCompressedSDR jpegr s1 d1 n1 f1 d2 n2 width height
            outputData).self? =
          (encodeFromHDRAndCompressedSDR jpegr s2 d1 n1 f1 d2 n2 width height
            outputData).self?)) ∧
    ((encodeFromCompressedSDRAndGainmap jpegr s1 d1 n1 d2 n2 outputData).result? =
        (encodeFromCompressedSDRAndGainmap jpegr s2 d1 n1 d2 n2 outputData).result? ∧
      (encodeFromCompressedSDRAndGainmap jpegr s1 d1 n1 d2 n2 outputData).out? =
        (encodeFromCompressedSDRAndGainmap jpegr s2 d1 n1 d2 n2 outputData).out? ∧
      ((encodeFromCompressedSDRAndGainmap jpegr s1 d1 n1 d2 n2 outputData).result? =
          some false →
        (encodeFromCompressedSDRAndGainmap jpegr s1 d1 n1 d2 n2 outputData).self? =
          (encodeFromCompressedSDRAndGainmap jpegr s2 d1 n1 d2 n2 outputData).self?)) ∧
    ((decodeToHDR jpegr malloc s1 d1 n1 out f1 boost).result? =
        (decodeToHDR jpegr malloc s2 d1 n1 out f1 boost).result? ∧
      (decodeToHDR jpegr malloc s1 d1 n1 out f1 boost).out? =
        (decodeToHDR jpegr malloc s2 d1 n1 out f1 boost).out? ∧
      ((decodeToHDR jpegr malloc s1 d1 n1 out f1 boost).result? = some false →
        (decodeToHDR jpegr malloc s1 d1 n1 out f1 boost).self? =
          (decodeToHDR jpegr malloc s2 d1 n1 out f1 boost).self?)) ∧
    ((isUltraHDRImage jpegr s1 d1 n1).result? = (isUltraHDRImage jpegr s2 d1 n1).result? ∧
      (isUltraHDRImage jpegr s1 d1 n1).out? = (isUltraHDRImage jpegr s2 d1 n1).out? ∧
      (∀ m, jpegr.isJPEGR d1 (static_cast_unsigned_int n1) = .threw m →
        (isUltraHDRImage jpegr s1 d1 n1).self? = (isUltraHDRImage jpegr s2 d1 n1).self?)) := by
  refine ⟨⟨?_, ?_, ?_⟩, ⟨?_, ?_, ?_⟩, ⟨?_, ?_, ?_⟩, ⟨?_, ?_, ?_⟩, ⟨?_, ?_, ?_⟩, ⟨?_, ?_, ?_⟩⟩
  · simp only [encodeFromHDROnly_eq_tail]
    exact (encodeTail_result_indep _ s1 s2 _ _).1
  · simp only [encodeFromHDROnly_eq_tail]
    exact (encodeTail_result_indep _ s1 s2 _ _).2
  · simp only [encodeFromHDROnly_eq_tail]
    exact encodeTail_false_self _ s1 s2 _ _
  · simp only [encodeFromHDRAndSDR_eq_tail]
    exact (encodeTail_result_indep _ s1 s2 _ _).1
  · simp only [encodeFromHDRAndSDR_eq_tail]
    exact (encodeTail_result_indep _ s1 s2 _ _).2
  · simp only [encodeFromHDRAndSDR_eq_tail]
    exact encodeTail_false_self _ s1 s2 _ _
  · simp only [encodeFromHDRAndCompressedSDR_eq_tail]
    exact (encodeTail_result_indep _ s1 s2 _ _).1
  · simp only [encodeFromHDRAndCompressedSDR_eq_tail]
    exact (encodeTail_result_indep _ s1 s2 _ _).2
  · simp only [encodeFromHDRAndCompressedSDR_eq_tail]
    exact encodeTail_false_self _ s1 s2 _ _
  · simp only [encodeFromCompressedSDRAndGainmap_eq_tail]
    exact (encodeTail_result_indep _ s1 s2 _ _).1
  · simp only [encodeFromCompressedSDRAndGainmap_eq_tail]
    exact (encodeTail_result_indep _ s1 s2 _ _).2
  · simp only [encodeFromCompressedSDRAndGainmap_eq_tail]
    exact encodeTail_false_self _ s1 s2 _ _
  · exact (decodeToHDR_result_indep jpegr malloc s1 s2 d1 n1 out f1 boost).1
  · exact (decodeToHDR_result_indep jpegr malloc s1 s2 d1 n1 out f1 boost).2
  · exact decodeToHDR_false_self jpegr malloc s1 s2 d1 n1 out f1 boost
  · exact (isUltraHDRImage_result_indep jpegr s1 s2 d1 n1).1
  · exact (isUltraHDRImage_result_indep jpegr s1 s2 d1 n1).2
  · exact fun m hm => isUltraHDRImage_threw_self jpegr s1 s2 d1 n1 m hm

/-- Witness of C10: a decode that fails on allocation, run from an object
holding "first" and from one holding "second", leaves the same object. -/
theorem no_state_leaks_but_last_error_witness :
    (decodeToHDR (JpegR.stub .threwOther ⟨.returned ⟨0, [7, 8, 9], 3⟩, 2, 1⟩ .threwOther)
        (fun _ => none) ⟨"first"⟩ [1, 2] 2 ⟨some [4], 1, 0, 0⟩ 0 1065353216).self? =
      (decodeToHDR (JpegR.stub .threwOther ⟨.returned ⟨0, [7, 8, 9], 3⟩, 2, 1⟩ .threwOther)
        (fun _ => none) ⟨"second"⟩ [1, 2] 2 ⟨some [4], 1, 0, 0⟩ 0 1065353216).self? :=
  (no_state_leaks_but_last_error
    (JpegR.stub .threwOther ⟨.returned ⟨0, [7, 8, 9], 3⟩, 2, 1⟩ .threwOther) (fun _ => none)
    ⟨"first"⟩ ⟨"second"⟩ [1, 2] [] 2 0 0 0 0 0 0 [] ⟨some [4], 1, 0, 0⟩
    1065353216).2.2.2.2.1.2.2 (by decide)

end UltraHDR
